import Mathlib

/-!
Verification of the file-upload service in `src/app.ts` (an Express app over
Firebase Storage).  The handlers are embedded shallowly:

* byte buffers are `List Nat`;
* the bucket is a `List StoredObject` (enumeration order = list order);
* the image transformer (`sharp(...).resize(300,300).png().toBuffer()`) is a
  parameter `transform : Buffer → Except String Buffer` (`Except.error` models
  a rejected promise, whose message is the thrown error's message);
* the identifier generator (`uuidv4()`) is a parameter `fileId : String`;
* signed-URL minting (`file.getSignedUrl({action: "read", expires: "03-09-2491"})`)
  is a parameter `sign : String → String` applied to the object key;
* the asynchronous write stream is a parameter `write : WriteOutcome` telling
  which of the `finish` / `error` events the store fires.

JavaScript semantics embedded explicitly: `String.prototype.includes` is
substring containment; `throw` inside an event callback registered with
`stream.on(...)` runs after the enclosing `try`/`catch` has already exited, so
it is NOT caught by that `catch` and escapes as an uncaught exception
(`HandlerOutcome`/`UploadOutcome.uncaught` below).
-/

/-- A byte buffer (`Buffer` in Node). -/
abbrev Buffer := List Nat

/-- `req.file` as produced by multer's memory storage (`src/app.ts:47`):
raw bytes, declared MIME type, original client filename. -/
structure UploadedFile where
  buffer : Buffer
  mimetype : String
  originalname : String
deriving Repr, DecidableEq

/-- One object of the Firebase Storage bucket: its key (`file.name`), the
`contentType` of its metadata, the optional `metadata.metadata.name` sidecar
(the original filename recorded at upload, `src/app.ts:74-81`), and its bytes. -/
structure StoredObject where
  name : String
  contentType : String
  metaName : Option String
  content : Buffer
deriving Repr, DecidableEq

/-- `pat` begins `s` (over character lists, structurally recursive so the
kernel can evaluate it). -/
def listIsPrefixOf : List Char → List Char → Bool
  | [], _ => true
  | _ :: _, [] => false
  | a :: as, b :: bs => a == b && listIsPrefixOf as bs

/-- `pat` occurs somewhere in `s` as a contiguous substring. -/
def listContainsSub (pat : List Char) : List Char → Bool
  | [] => pat.isEmpty
  | c :: rest => listIsPrefixOf pat (c :: rest) || listContainsSub pat rest

/-- JavaScript `s.includes(pat)`: substring containment (`""` is contained in
every string). -/
def jsIncludes (s pat : String) : Bool :=
  listContainsSub pat.data s.data

/-- The classifier the spec describes: "any image subtype", i.e. a MIME type
whose top-level type is `image` (it begins with `"image/"`).  Written from the
spec's words, to compare with the code's `file.mimetype.includes("image")`. -/
def specIsImageSubtype (m : String) : Bool :=
  listIsPrefixOf "image/".data m.data

/-- The classify-and-transform step of the upload handler
(`src/app.ts:56-70`).  Returns the processed buffer together with the local
`contentType` variable the code assigns (`"image/png"` on the image branch,
`"application/pdf"` on the PDF branch); note that variable is never read
afterwards — the write-stream metadata uses `file.mimetype` instead.
`Except.error` carries the message of the thrown / rejected error, which the
surrounding `catch` serializes. -/
def classify (transform : Buffer → Except String Buffer) (file : UploadedFile) :
    Except String (Buffer × String) :=
  if jsIncludes file.mimetype "image" then
    match transform file.buffer with
    | Except.ok b => Except.ok (b, "image/png")
    | Except.error e => Except.error e
  else if file.mimetype = "application/pdf" then
    Except.ok (file.buffer, "application/pdf")
  else
    Except.error "Unsupported file type"

/-- The blob-store key the upload writes under: `bucket.file(` followed by the
template literal of `fileId` (`src/app.ts:73`) — the identifier itself, with
nothing appended. -/
def uploadKey (fileId : String) : String := fileId

/-- Whether the store fires the write stream's `finish` event or its `error`
event (`src/app.ts:83-99`). -/
inductive WriteOutcome
  | success
  | failure (msg : String)
deriving Repr, DecidableEq

/-- The 200 body of a successful upload (`src/app.ts:92-96`). -/
structure UploadSuccessBody where
  fileId : String
  fileUrl : String
  message : String
deriving Repr, DecidableEq

/-- How one run of the upload handler ends:
* `ok body` — `res.status(200).json(body)`;
* `err msg` — the `catch` ran `res.status(500).json(msg)`;
* `uncaught msg` — an exception escaped the handler uncaught (the `throw`
  inside the `"error"` event callback, `src/app.ts:84`, fires after the
  `try`/`catch` has exited and crashes the process). -/
inductive UploadOutcome
  | ok (body : UploadSuccessBody)
  | err (msg : String)
  | uncaught (msg : String)
deriving Repr, DecidableEq

/-- Hexadecimal digit (uppercase), as `encodeURIComponent` prints escapes. -/
def hexDigit (n : Nat) : Char :=
  if n < 10 then Char.ofNat (48 + n) else Char.ofNat (55 + n)

/-- The UTF-8 bytes of one code point. -/
def charUtf8Bytes (c : Char) : List Nat :=
  let n := c.toNat
  if n < 128 then [n]
  else if n < 2048 then [192 + n / 64, 128 + n % 64]
  else if n < 65536 then [224 + n / 4096, 128 + (n / 64) % 64, 128 + n % 64]
  else [240 + n / 262144, 128 + (n / 4096) % 64, 128 + (n / 64) % 64, 128 + n % 64]

/-- Characters `encodeURIComponent` leaves unescaped:
`A-Z a-z 0-9 - _ . ! ~ * ' ( )`. -/
def uriUnescaped (c : Char) : Bool :=
  c.isAlpha || c.isDigit ||
    c ∈ [Char.ofNat 45, Char.ofNat 95, Char.ofNat 46, Char.ofNat 33,
         Char.ofNat 126, Char.ofNat 42, Char.ofNat 39, Char.ofNat 40,
         Char.ofNat 41]

/-- JavaScript `encodeURIComponent`: unescaped characters kept, every other
character percent-escaped byte by byte in UTF-8. -/
def encodeURIComponent (s : String) : String :=
  String.join (s.data.map fun c =>
    if uriUnescaped c then String.mk [c]
    else String.join ((charUtf8Bytes c).map fun b =>
      String.mk [Char.ofNat 37, hexDigit (b / 16), hexDigit (b % 16)]))

/-- The public download URL built for an object
(`src/app.ts:89-91` and `src/app.ts:178-180`). -/
def publicUrl (bucketName objectName : String) : String :=
  "https://firebasestorage.googleapis.com/v0/b/" ++ bucketName ++ "/o/" ++
    encodeURIComponent objectName ++ "?alt=media"

/-- The `POST /upload` handler (`src/app.ts:44-103`), returning its outcome and
the bucket contents after the request.

Faithful to the source:
* no file → the thrown `"File is not provided."` is caught → 500 (`:49`);
* classification error (unsupported type, or sharp rejection awaited inside
  the `try`) → caught → 500 (`:56-70`, `:100-102`);
* otherwise the processed buffer is written under key `uploadKey fileId` with
  metadata `contentType := file.mimetype` (NOT the local `contentType`
  variable) and `metadata.name := file.originalname` (`:73-81`, `:99`);
* on the `finish` event → 200 with `{fileId, publicUrl, message}` (`:87-97`);
* on the `error` event the callback throws; that throw happens after the
  handler's `try`/`catch` returned, so nothing catches it: the outcome is
  `uncaught` and no object becomes retrievable (`:83-85`). -/
def uploadHandler (bucketName : String) (transform : Buffer → Except String Buffer)
    (fileId : String) (file? : Option UploadedFile) (write : WriteOutcome)
    (store : List StoredObject) : UploadOutcome × List StoredObject :=
  match file? with
  | none => (UploadOutcome.err "File is not provided.", store)
  | some file =>
    match classify transform file with
    | Except.error msg => (UploadOutcome.err msg, store)
    | Except.ok processed =>
      match write with
      | WriteOutcome.failure emsg =>
          (UploadOutcome.uncaught ("Blob stream error: Error: " ++ emsg), store)
      | WriteOutcome.success =>
          (UploadOutcome.ok
            { fileId := fileId
              fileUrl := publicUrl bucketName (uploadKey fileId)
              message := "File uploaded and processed successfully" },
           store ++ [{ name := uploadKey fileId
                       contentType := file.mimetype
                       metaName := some file.originalname
                       content := processed.1 }])

/-- The 200 body of `GET /file/:fileId` (`src/app.ts:125-131`). -/
structure GetFileBody where
  fileId : String
  fileUrl : String
  contentType : String
  extension : String
deriving Repr, DecidableEq

/-- Result of `GET /file/:fileId`: 200 with a body, or 404
`{message: "File not found"}`. -/
inductive GetFileResult
  | ok (body : GetFileBody)
  | notFound
deriving Repr, DecidableEq

/-- The `GET /file/:fileId` handler (`src/app.ts:105-138`): check existence of
the key, 404 if absent; otherwise read the metadata, mint a signed URL, and
infer the display extension from the content type (`".pdf"` for
`"application/pdf"`, `".png"` otherwise). -/
def getFileHandler (sign : String → String) (store : List StoredObject)
    (fileId : String) : GetFileResult :=
  match store.find? (fun o => o.name == fileId) with
  | none => GetFileResult.notFound
  | some o =>
      GetFileResult.ok
        { fileId := fileId
          fileUrl := sign o.name
          contentType := o.contentType
          extension := if o.contentType = "application/pdf" then ".pdf" else ".png" }

/-- The 200 body of `GET /file-by-name/:name` (`src/app.ts:160-164`). -/
structure GetByNameBody where
  fileName : String
  fileUrl : String
  contentType : String
deriving Repr, DecidableEq

/-- Result of `GET /file-by-name/:name`: 200 with a body, or 404. -/
inductive GetByNameResult
  | ok (body : GetByNameBody)
  | notFound
deriving Repr, DecidableEq

/-- The `GET /file-by-name/:name` handler (`src/app.ts:140-171`): list the
bucket, take the first object whose `metadata?.metadata?.name` strictly equals
the requested name (`Array.prototype.find`), 404 when none matches. -/
def getFileByNameHandler (sign : String → String) (store : List StoredObject)
    (fileName : String) : GetByNameResult :=
  match store.find? (fun o => o.metaName == some fileName) with
  | none => GetByNameResult.notFound
  | some o =>
      GetByNameResult.ok
        { fileName := fileName
          fileUrl := sign o.name
          contentType := o.contentType }

/-- The `GET /files` handler (`src/app.ts:174-187`): one public URL per stored
object, in the bucket's enumeration order. -/
def listFilesHandler (bucketName : String) (store : List StoredObject) :
    List String :=
  store.map (fun o => publicUrl bucketName o.name)

/-! ## Helper lemmas -/

/-- `find?` over `l ++ [x]` finds something whenever `p x` holds. -/
theorem find?_append_singleton_isSome {α : Type} (p : α → Bool) (l : List α)
    (x : α) (hx : p x = true) : ∃ y, (l ++ [x]).find? p = some y := by
  induction l with
  | nil => exact ⟨x, by simp [List.find?, hx]⟩
  | cons a as ih =>
    by_cases h : p a = true
    · exact ⟨a, by simp [List.find?_cons_of_pos, h]⟩
    · obtain ⟨y, hy⟩ := ih
      refine ⟨y, ?_⟩
      rw [List.cons_append, List.find?_cons_of_neg _ (by simp [h]), hy]

/-! ## Claims -/

/-- C1.  The spec claims an image upload stores content type `image/png`.
On the code, uploading a JPEG (an image subtype, also by the spec's own
classifier): the handler does compute the local variable
`contentType = "image/png"` (second component of `classify`'s result), but the
object written to the bucket carries `contentType = file.mimetype`, i.e.
`"image/jpeg"`, which differs from `"image/png"`.  The write-stream metadata
(`src/app.ts:76`) never uses the computed variable. -/
theorem upload_image_records_input_mimetype :
    classify (fun b => Except.ok b)
        { buffer := [1, 2, 3], mimetype := "image/jpeg", originalname := "a.jpg" } =
      Except.ok ([1, 2, 3], "image/png") ∧
    (uploadHandler "bkt" (fun b => Except.ok b) "id0"
        (some { buffer := [1, 2, 3], mimetype := "image/jpeg", originalname := "a.jpg" })
        WriteOutcome.success []).2 =
      [{ name := "id0", contentType := "image/jpeg", metaName := some "a.jpg",
         content := [1, 2, 3] }] ∧
    specIsImageSubtype "image/jpeg" = true ∧
    "image/jpeg" ≠ "image/png" := by
  exact ⟨rfl, by decide, by decide, by decide⟩

/-- C2.  When the blob store reports a write failure, the upload handler's
outcome is an uncaught exception escaping the handler (the `throw` in the
`"error"` event callback fires after the `try`/`catch` has exited), not a
500 JSON error response, and no object is stored. -/
theorem upload_write_error_escapes_uncaught :
    uploadHandler "bkt" (fun b => Except.ok b) "id0"
        (some { buffer := [1], mimetype := "application/pdf", originalname := "d.pdf" })
        (WriteOutcome.failure "boom") [] =
      (UploadOutcome.uncaught "Blob stream error: Error: boom", []) ∧
    UploadOutcome.uncaught "Blob stream error: Error: boom" ≠
      UploadOutcome.err "Blob stream error: Error: boom" := by
  exact ⟨rfl, by decide⟩

/-- C3 counterexample.  `"text/x-image"` is not an image subtype (its
top-level type is `text`) and is not `application/pdf`, so the claim demands
`UnsupportedTypeError` and no write; but the code's substring test
`mimetype.includes("image")` sends it down the image branch, and with
decodable bytes the upload succeeds and writes an object. -/
theorem upload_unsupported_claim_counterexample :
    specIsImageSubtype "text/x-image" = false ∧
    "text/x-image" ≠ "application/pdf" ∧
    uploadHandler "bkt" (fun b => Except.ok b) "id0"
        (some { buffer := [9], mimetype := "text/x-image", originalname := "x.bin" })
        WriteOutcome.success [] =
      (UploadOutcome.ok
        { fileId := "id0", fileUrl := publicUrl "bkt" "id0",
          message := "File uploaded and processed successfully" },
       [{ name := "id0", contentType := "text/x-image", metaName := some "x.bin",
          content := [9] }]) := by
  exact ⟨by decide, by decide, rfl⟩

/-- C3 (amended).  For every upload whose declared MIME type does not contain
the substring `"image"` and is not exactly `application/pdf`, the handler
fails with the `UnsupportedTypeError` message (`"Unsupported file type"`,
served as a 500) and the store is unchanged — whatever the write outcome
would have been. -/
theorem upload_unsupported_substring_rejected (bucketName fileId : String)
    (transform : Buffer → Except String Buffer) (file : UploadedFile)
    (write : WriteOutcome) (store : List StoredObject)
    (himg : jsIncludes file.mimetype "image" = false)
    (hpdf : file.mimetype ≠ "application/pdf") :
    uploadHandler bucketName transform fileId (some file) write store =
      (UploadOutcome.err "Unsupported file type", store) := by
  simp [uploadHandler, classify, himg, hpdf]

/-- Witness for C3's amended theorem at `text/plain`. -/
theorem upload_unsupported_substring_rejected_witness :
    uploadHandler "bkt" (fun b => Except.ok b) "id0"
        (some { buffer := [9], mimetype := "text/plain", originalname := "x.txt" })
        WriteOutcome.success [] =
      (UploadOutcome.err "Unsupported file type", []) :=
  upload_unsupported_substring_rejected "bkt" "id0" (fun b => Except.ok b)
    { buffer := [9], mimetype := "text/plain", originalname := "x.txt" }
    WriteOutcome.success [] (by decide) (by decide)

/-- C4.  Round-trip divergence: uploading a JPEG and retrieving it by the
returned identifier yields content type `"image/jpeg"` (not the fixed output
format `"image/png"` the claim states), although the inferred extension is
`".png"`; the PDF half of the round-trip does hold
(`"application/pdf"` / `".pdf"`). -/
theorem roundtrip_image_contentType_diverges :
    getFileHandler (fun k => k)
        (uploadHandler "bkt" (fun b => Except.ok b) "id0"
          (some { buffer := [1, 2, 3], mimetype := "image/jpeg", originalname := "a.jpg" })
          WriteOutcome.success []).2 "id0" =
      GetFileResult.ok
        { fileId := "id0", fileUrl := "id0", contentType := "image/jpeg",
          extension := ".png" } ∧
    "image/jpeg" ≠ "image/png" ∧
    getFileHandler (fun k => k)
        (uploadHandler "bkt" (fun b => Except.ok b) "idp"
          (some { buffer := [4, 5], mimetype := "application/pdf", originalname := "d.pdf" })
          WriteOutcome.success []).2 "idp" =
      GetFileResult.ok
        { fileId := "idp", fileUrl := "idp", contentType := "application/pdf",
          extension := ".pdf" } := by
  exact ⟨by decide, by decide, by decide⟩

/-- C5.  A PDF upload persists exactly the input bytes (`content :=
file.buffer`) under the generated key, with the original content type
(`contentType := file.mimetype`) and the original filename as metadata. -/
theorem upload_pdf_bytes_and_contentType_preserved (bucketName fileId : String)
    (transform : Buffer → Except String Buffer) (file : UploadedFile)
    (store : List StoredObject) (hpdf : file.mimetype = "application/pdf") :
    (uploadHandler bucketName transform fileId (some file) WriteOutcome.success store).2 =
      store ++ [{ name := uploadKey fileId, contentType := file.mimetype,
                  metaName := some file.originalname, content := file.buffer }] := by
  have himg : jsIncludes "application/pdf" "image" = false := by decide
  simp [uploadHandler, classify, hpdf, himg]

/-- Witness for C5 at a concrete PDF upload. -/
theorem upload_pdf_bytes_and_contentType_preserved_witness :
    (uploadHandler "bkt" (fun b => Except.ok b) "idp"
        (some { buffer := [4, 5], mimetype := "application/pdf", originalname := "d.pdf" })
        WriteOutcome.success []).2 =
      [] ++ [{ name := uploadKey "idp", contentType := "application/pdf",
               metaName := some "d.pdf", content := [4, 5] }] :=
  upload_pdf_bytes_and_contentType_preserved "bkt" "idp" (fun b => Except.ok b)
    { buffer := [4, 5], mimetype := "application/pdf", originalname := "d.pdf" } [] rfl

/-- C6.  Retrieval by original filename scans the enumeration: when no stored
object's recorded original filename equals the input exactly, the result is
404; when the store is `pre ++ o :: post` with `o` matching and nothing in
`pre` matching, the result is the descriptor of `o` — the first enumerated
match wins. -/
theorem getByName_first_exact_match_or_404 (sign : String → String) (name : String) :
    (∀ store : List StoredObject,
        (∀ o ∈ store, o.metaName ≠ some name) →
        getFileByNameHandler sign store name = GetByNameResult.notFound) ∧
    (∀ (pre post : List StoredObject) (o : StoredObject),
        o.metaName = some name →
        (∀ o' ∈ pre, o'.metaName ≠ some name) →
        getFileByNameHandler sign (pre ++ o :: post) name =
          GetByNameResult.ok
            { fileName := name, fileUrl := sign o.name, contentType := o.contentType }) := by
  constructor
  · intro store h
    have hn : store.find? (fun o => o.metaName == some name) = none := by
      rw [List.find?_eq_none]
      intro o ho hb
      exact h o ho (by simpa using hb)
    simp [getFileByNameHandler, hn]
  · intro pre post o hm hpre
    have hfind : (pre ++ o :: post).find? (fun x => x.metaName == some name) = some o := by
      induction pre with
      | nil =>
        simp only [List.nil_append]
        rw [List.find?_cons_of_pos _ (by simp [hm])]
      | cons a as ih =>
        rw [List.cons_append, List.find?_cons_of_neg _ (by simpa using hpre a (by simp))]
        exact ih fun o' h' => hpre o' (List.mem_cons_of_mem a h')
    simp [getFileByNameHandler, hfind]

/-- Witness for C6: with two objects both named `dup.txt`, the first
enumerated one is returned; against an empty store the result is 404. -/
theorem getByName_first_exact_match_or_404_witness :
    getFileByNameHandler (fun k => k)
      [{ name := "k1", contentType := "image/png", metaName := some "other.txt", content := [0] },
       { name := "k2", contentType := "image/png", metaName := some "dup.txt", content := [1] },
       { name := "k3", contentType := "application/pdf", metaName := some "dup.txt", content := [2] }]
      "dup.txt" =
      GetByNameResult.ok
        { fileName := "dup.txt", fileUrl := "k2", contentType := "image/png" } ∧
    getFileByNameHandler (fun k => k) [] "dup.txt" = GetByNameResult.notFound :=
  ⟨(getByName_first_exact_match_or_404 (fun k => k) "dup.txt").2
      [{ name := "k1", contentType := "image/png", metaName := some "other.txt", content := [0] }]
      [{ name := "k3", contentType := "application/pdf", metaName := some "dup.txt", content := [2] }]
      { name := "k2", contentType := "image/png", metaName := some "dup.txt", content := [1] }
      rfl (by decide),
   (getByName_first_exact_match_or_404 (fun k => k) "dup.txt").1 [] (by decide)⟩

/-- C7.  Retrieval by an identifier that names no stored object returns the
404 not-found result — never a 500. -/
theorem getFile_absent_id_returns_notFound (sign : String → String)
    (store : List StoredObject) (fileId : String)
    (h : ∀ o ∈ store, o.name ≠ fileId) :
    getFileHandler sign store fileId = GetFileResult.notFound := by
  have hn : store.find? (fun o => o.name == fileId) = none := by
    rw [List.find?_eq_none]
    intro o ho hb
    exact h o ho (by simpa using hb)
  simp [getFileHandler, hn]

/-- Witness for C7 with a non-empty store and a never-assigned identifier. -/
theorem getFile_absent_id_returns_notFound_witness :
    getFileHandler (fun k => k)
      [{ name := "a", contentType := "image/png", metaName := some "x", content := [] }]
      "never-created" = GetFileResult.notFound :=
  getFile_absent_id_returns_notFound (fun k => k)
    [{ name := "a", contentType := "image/png", metaName := some "x", content := [] }]
    "never-created" (by decide)

/-- C8.  The listing endpoint returns exactly one URL per stored object, the
i-th URL being the deterministic public URL of the i-th object's key (the
store's enumeration order); with zero stored objects it returns the empty
sequence. -/
theorem listFiles_one_url_per_object (bucketName : String)
    (store : List StoredObject) (i : Nat) :
    (listFilesHandler bucketName store).length = store.length ∧
    (listFilesHandler bucketName store)[i]? =
      Option.map (fun o => publicUrl bucketName o.name) store[i]? ∧
    listFilesHandler bucketName ([] : List StoredObject) = [] := by
  refine ⟨by simp [listFilesHandler], ?_, rfl⟩
  simp [listFilesHandler]

/-- C9.  Two successful uploads of the same file under distinct generated
identifiers respond with the two distinct identifiers and append two distinct
stored objects (distinct keys), even though the bytes are identical. -/
theorem upload_twice_distinct_identifiers_and_keys (bucketName : String)
    (transform : Buffer → Except String Buffer) (file : UploadedFile)
    (id1 id2 : String) (store : List StoredObject) (p : Buffer × String)
    (hids : id1 ≠ id2) (hc : classify transform file = Except.ok p) :
    uploadKey id1 ≠ uploadKey id2 ∧
    (uploadHandler bucketName transform id1 (some file) WriteOutcome.success store).1 =
      UploadOutcome.ok
        { fileId := id1, fileUrl := publicUrl bucketName (uploadKey id1),
          message := "File uploaded and processed successfully" } ∧
    (uploadHandler bucketName transform id2 (some file) WriteOutcome.success
        (uploadHandler bucketName transform id1 (some file) WriteOutcome.success store).2).1 =
      UploadOutcome.ok
        { fileId := id2, fileUrl := publicUrl bucketName (uploadKey id2),
          message := "File uploaded and processed successfully" } ∧
    (uploadHandler bucketName transform id2 (some file) WriteOutcome.success
        (uploadHandler bucketName transform id1 (some file) WriteOutcome.success store).2).2 =
      store ++
        [{ name := uploadKey id1, contentType := file.mimetype,
           metaName := some file.originalname, content := p.1 },
         { name := uploadKey id2, contentType := file.mimetype,
           metaName := some file.originalname, content := p.1 }] := by
  refine ⟨hids, ?_, ?_, ?_⟩ <;> simp [uploadHandler, hc]

/-- Witness for C9: two uploads of the same PDF bytes under identifiers
`u1` and `u2`. -/
theorem upload_twice_distinct_identifiers_and_keys_witness :
    uploadKey "u1" ≠ uploadKey "u2" ∧
    (uploadHandler "bkt" (fun b => Except.ok b) "u1"
        (some { buffer := [7], mimetype := "application/pdf", originalname := "a.pdf" })
        WriteOutcome.success []).1 =
      UploadOutcome.ok
        { fileId := "u1", fileUrl := publicUrl "bkt" (uploadKey "u1"),
          message := "File uploaded and processed successfully" } ∧
    (uploadHandler "bkt" (fun b => Except.ok b) "u2"
        (some { buffer := [7], mimetype := "application/pdf", originalname := "a.pdf" })
        WriteOutcome.success
        (uploadHandler "bkt" (fun b => Except.ok b) "u1"
          (some { buffer := [7], mimetype := "application/pdf", originalname := "a.pdf" })
          WriteOutcome.success []).2).1 =
      UploadOutcome.ok
        { fileId := "u2", fileUrl := publicUrl "bkt" (uploadKey "u2"),
          message := "File uploaded and processed successfully" } ∧
    (uploadHandler "bkt" (fun b => Except.ok b) "u2"
        (some { buffer := [7], mimetype := "application/pdf", originalname := "a.pdf" })
        WriteOutcome.success
        (uploadHandler "bkt" (fun b => Except.ok b) "u1"
          (some { buffer := [7], mimetype := "application/pdf", originalname := "a.pdf" })
          WriteOutcome.success []).2).2 =
      [] ++
        [{ name := uploadKey "u1", contentType := "application/pdf",
           metaName := some "a.pdf", content := [7] },
         { name := uploadKey "u2", contentType := "application/pdf",
           metaName := some "a.pdf", content := [7] }] :=
  upload_twice_distinct_identifiers_and_keys "bkt" (fun b => Except.ok b)
    { buffer := [7], mimetype := "application/pdf", originalname := "a.pdf" }
    "u1" "u2" [] ([7], "application/pdf") (by decide) rfl

/-- C10.  A successful upload persists under the key `uploadKey fileId`, which
is the identifier itself with nothing appended; the 200 body's `fileId` is
that same identifier, and using it as the `:fileId` of retrieval finds the
object (the result is not 404). -/
theorem upload_key_equals_fileId_and_roundtrip (bucketName fileId : String)
    (transform : Buffer → Except String Buffer) (file : UploadedFile)
    (store : List StoredObject) (sign : String → String) (p : Buffer × String)
    (hc : classify transform file = Except.ok p) :
    uploadKey fileId = fileId ∧
    (uploadHandler bucketName transform fileId (some file) WriteOutcome.success store).1 =
      UploadOutcome.ok
        { fileId := fileId, fileUrl := publicUrl bucketName (uploadKey fileId),
          message := "File uploaded and processed successfully" } ∧
    getFileHandler sign
        (uploadHandler bucketName transform fileId (some file) WriteOutcome.success store).2
        fileId ≠ GetFileResult.notFound := by
  refine ⟨rfl, by simp [uploadHandler, hc], ?_⟩
  have hstore :
      (uploadHandler bucketName transform fileId (some file) WriteOutcome.success store).2 =
        store ++ [{ name := uploadKey fileId, contentType := file.mimetype,
                    metaName := some file.originalname, content := p.1 }] := by
    simp [uploadHandler, hc]
  rw [hstore]
  obtain ⟨y, hy⟩ := find?_append_singleton_isSome (fun o => o.name == fileId) store
    { name := uploadKey fileId, contentType := file.mimetype,
      metaName := some file.originalname, content := p.1 } (by simp [uploadKey])
  simp [getFileHandler, hy]

/-- Witness for C10 at a concrete PDF upload. -/
theorem upload_key_equals_fileId_and_roundtrip_witness :
    uploadKey "idw" = "idw" ∧
    (uploadHandler "bkt" (fun b => Except.ok b) "idw"
        (some { buffer := [3], mimetype := "application/pdf", originalname := "w.pdf" })
        WriteOutcome.success []).1 =
      UploadOutcome.ok
        { fileId := "idw", fileUrl := publicUrl "bkt" (uploadKey "idw"),
          message := "File uploaded and processed successfully" } ∧
    getFileHandler (fun k => k)
        (uploadHandler "bkt" (fun b => Except.ok b) "idw"
          (some { buffer := [3], mimetype := "application/pdf", originalname := "w.pdf" })
          WriteOutcome.success []).2 "idw" ≠ GetFileResult.notFound :=
  upload_key_equals_fileId_and_roundtrip "bkt" "idw" (fun b => Except.ok b)
    { buffer := [3], mimetype := "application/pdf", originalname := "w.pdf" }
    [] (fun k => k) ([3], "application/pdf") rfl
